import Mathlib

/-!
Shallow embedding of the configuration resolution engine of
`src/config/config_manager.py` (class `ConfigManager` and its dataclass
records), together with theorems settling the frozen claims about it.

Modelling conventions:
* Python attribute values flowing through this engine are scalars
  (`str`, `int`, `float`, `bool`, `None`) plus the two flat collection
  shapes the configuration actually uses (a list of strings such as
  `browser.args`, and a string-to-string mapping such as `api.headers`).
  They are embedded as the inductive `Value`.  Python `float`s are
  embedded as rationals (`Rat`), exact for every value this engine
  compares or stores.
* Python dictionaries are embedded as association lists in insertion
  order; `dict` assignment updates an existing key in place and appends
  a fresh key, which `dict_set` mirrors.
* The process environment is a key/value list (`Env`); `os.getenv`
  returns the first binding.  A real process environment binds each
  name at most once.
* The file system seen by the loader is a list mapping candidate file
  names to the outcome of touching that file: `.unreadable` when opening
  it raises, or `.readable parse` for an openable file, where `parse` is
  the outcome of parsing it in its own format (`.ok data` for a
  successful parse — this already accounts for the
  `yaml.safe_load(f) or {}` normalisation — and `.error ()` when
  parsing raises).
* A Python exception escaping a modelled function is an explicit
  error value (`Option`/`Except`), never a stub.
-/

namespace PWConfig

/-- A dynamically typed Python value as used by this configuration engine. -/
inductive Value where
  | vNone : Value
  | vBool (b : Bool) : Value
  | vInt (n : Int) : Value
  | vFloat (q : Rat) : Value
  | vStr (s : String) : Value
  | vStrList (xs : List String) : Value
  | vStrDict (xs : List (String × String)) : Value
  deriving DecidableEq, Repr

/-- Python truthiness (`bool(v)`): empty/zero values are falsy. -/
def valTruthy : Value → Bool
  | .vNone => false
  | .vBool b => b
  | .vInt n => n != 0
  | .vFloat q => q != 0
  | .vStr s => s != ""
  | .vStrList xs => !xs.isEmpty
  | .vStrDict xs => !xs.isEmpty

/-- Numeric reading of a value, as Python's ordered comparisons accept it
(`bool` counts as `0`/`1`); `none` models the `TypeError` Python raises
when ordering a non-numeric value against a number. -/
def valNum : Value → Option Rat
  | .vBool b => some (if b then 1 else 0)
  | .vInt n => some (n : Rat)
  | .vFloat q => some q
  | _ => none

/-- Python `v in l` for a list `l` of strings: only an equal string matches
(equality between a string and any non-string Python value here is `False`). -/
def valInStrList (v : Value) (l : List String) : Bool :=
  match v with
  | .vStr s => l.contains s
  | _ => false

/-- Python `str(v)` as interpolated into the validation messages.  Exact for
strings, booleans and integers (the only shapes a validation message ever
renders in this code base); the remaining cases are a textual
approximation of CPython's rendering. -/
def pyStr : Value → String
  | .vNone => "None"
  | .vBool b => if b then "True" else "False"
  | .vInt n => toString n
  | .vFloat q => if q.den = 1 then toString q.num ++ ".0" else toString q.num ++ "/" ++ toString q.den
  | .vStr s => s
  | .vStrList xs => "[" ++ String.intercalate ", " xs ++ "]"
  | .vStrDict xs => "\x7b" ++ String.intercalate ", " (xs.map (fun kv => kv.1 ++ ": " ++ kv.2)) ++ "\x7d"

/-- Decimal digits to a number; `none` on a non-digit. -/
def digitsToNat : List Char → Nat → Option Nat
  | [], acc => some acc
  | c :: rest, acc =>
    if c.isDigit then digitsToNat rest (acc * 10 + (c.toNat - 48)) else none

/-- At least one decimal digit. -/
def parseDigits : List Char → Option Nat
  | [] => none
  | cs => digitsToNat cs 0

/-- Python `int(s)`: parse a decimal integer with optional sign after
stripping surrounding whitespace; `none` models the `ValueError` raised
on any other string.  (Python additionally allows underscore digit
grouping and non-ASCII digits; nothing in this code base uses either.) -/
def pyInt (s : String) : Option Int :=
  let cs := ((s.toList.dropWhile Char.isWhitespace).reverse.dropWhile Char.isWhitespace).reverse
  match cs with
  | '-' :: rest => (parseDigits rest).map (fun m => -(m : Int))
  | '+' :: rest => (parseDigits rest).map (fun m => (m : Int))
  | rest => (parseDigits rest).map (fun m => (m : Int))

/-- `dataclass DatabaseConfig` with its field defaults. -/
structure DatabaseConfig where
  type : Value := .vStr "sqlite"
  host : Value := .vStr "localhost"
  port : Value := .vInt 5432
  database : Value := .vStr "test_db"
  username : Value := .vStr ""
  password : Value := .vStr ""
  connection_pool_size : Value := .vInt 10
  timeout : Value := .vInt 30
  deriving DecidableEq, Repr

/-- `dataclass APIConfig` with its field defaults. -/
structure APIConfig where
  base_url : Value := .vStr "https://httpbin.org"
  timeout : Value := .vInt 30
  max_retries : Value := .vInt 3
  retry_delay : Value := .vFloat 1
  verify_ssl : Value := .vBool true
  headers : Value := .vStrDict []
  deriving DecidableEq, Repr

/-- `dataclass BrowserConfig` with its field defaults. -/
structure BrowserConfig where
  headless : Value := .vBool true
  timeout : Value := .vInt 30000
  viewport_width : Value := .vInt 1920
  viewport_height : Value := .vInt 1080
  browser_type : Value := .vStr "chromium"
  slow_mo : Value := .vInt 0
  devtools : Value := .vBool false
  args : Value := .vStrList ["--no-sandbox", "--disable-dev-shm-usage", "--disable-gpu", "--disable-web-security"]
  deriving DecidableEq, Repr

/-- `dataclass ReportConfig` with its field defaults. -/
structure ReportConfig where
  allure_results_dir : Value := .vStr "results/allure-results"
  html_report_path : Value := .vStr "results/report.html"
  screenshot_dir : Value := .vStr "screenshots"
  video_dir : Value := .vStr "videos"
  generate_allure : Value := .vBool true
  generate_html : Value := .vBool true
  capture_screenshots : Value := .vBool true
  capture_videos : Value := .vBool false
  deriving DecidableEq, Repr

/-- `dataclass PerformanceConfig` with its field defaults. -/
structure PerformanceConfig where
  default_concurrent_users : Value := .vInt 10
  default_requests_per_user : Value := .vInt 10
  max_response_time_ms : Value := .vFloat 5000
  min_success_rate : Value := .vFloat 95
  ramp_up_time : Value := .vInt 0
  results_dir : Value := .vStr "performance_results"
  deriving DecidableEq, Repr

/-- `dataclass TestConfig`: the configuration tree.  `environment` is always
a Python string in this engine, so it is embedded as `String`; `custom` is
an open dictionary in insertion order. -/
structure TestConfig where
  environment : String := "test"
  database : DatabaseConfig := {}
  api : APIConfig := {}
  browser : BrowserConfig := {}
  report : ReportConfig := {}
  performance : PerformanceConfig := {}
  custom : List (String × Value) := []
  deriving DecidableEq, Repr

/-- `TestConfig()`: the tree holding every hard-coded default. -/
def defaultTestConfig : TestConfig := {}

/-! ### Field tables

`_merge_config` and `update_config` probe fields with `hasattr` and write
them with `setattr`.  For each section the embedded `hasField` recognises
exactly the data fields the dataclass declares (the only attribute names
this code base ever merges or updates), and `setField` writes the named
field. -/

/-- `hasattr(self._config.database, key)` over the declared data fields. -/
def DatabaseConfig.hasField (k : String) : Bool :=
  k == "type" || k == "host" || k == "port" || k == "database" ||
  k == "username" || k == "password" || k == "connection_pool_size" || k == "timeout"

/-- `setattr(self._config.database, key, value)`. -/
def DatabaseConfig.setField (d : DatabaseConfig) (k : String) (v : Value) : DatabaseConfig :=
  if k == "type" then { d with type := v }
  else if k == "host" then { d with host := v }
  else if k == "port" then { d with port := v }
  else if k == "database" then { d with database := v }
  else if k == "username" then { d with username := v }
  else if k == "password" then { d with password := v }
  else if k == "connection_pool_size" then { d with connection_pool_size := v }
  else if k == "timeout" then { d with timeout := v }
  else d

/-- `hasattr(self._config.api, key)` over the declared data fields. -/
def APIConfig.hasField (k : String) : Bool :=
  k == "base_url" || k == "timeout" || k == "max_retries" ||
  k == "retry_delay" || k == "verify_ssl" || k == "headers"

/-- `setattr(self._config.api, key, value)`. -/
def APIConfig.setField (a : APIConfig) (k : String) (v : Value) : APIConfig :=
  if k == "base_url" then { a with base_url := v }
  else if k == "timeout" then { a with timeout := v }
  else if k == "max_retries" then { a with max_retries := v }
  else if k == "retry_delay" then { a with retry_delay := v }
  else if k == "verify_ssl" then { a with verify_ssl := v }
  else if k == "headers" then { a with headers := v }
  else a

/-- `hasattr(self._config.browser, key)` over the declared data fields. -/
def BrowserConfig.hasField (k : String) : Bool :=
  k == "headless" || k == "timeout" || k == "viewport_width" || k == "viewport_height" ||
  k == "browser_type" || k == "slow_mo" || k == "devtools" || k == "args"

/-- `setattr(self._config.browser, key, value)`. -/
def BrowserConfig.setField (b : BrowserConfig) (k : String) (v : Value) : BrowserConfig :=
  if k == "headless" then { b with headless := v }
  else if k == "timeout" then { b with timeout := v }
  else if k == "viewport_width" then { b with viewport_width := v }
  else if k == "viewport_height" then { b with viewport_height := v }
  else if k == "browser_type" then { b with browser_type := v }
  else if k == "slow_mo" then { b with slow_mo := v }
  else if k == "devtools" then { b with devtools := v }
  else if k == "args" then { b with args := v }
  else b

/-- `hasattr(self._config.report, key)` over the declared data fields. -/
def ReportConfig.hasField (k : String) : Bool :=
  k == "allure_results_dir" || k == "html_report_path" || k == "screenshot_dir" ||
  k == "video_dir" || k == "generate_allure" || k == "generate_html" ||
  k == "capture_screenshots" || k == "capture_videos"

/-- `setattr(self._config.report, key, value)`. -/
def ReportConfig.setField (r : ReportConfig) (k : String) (v : Value) : ReportConfig :=
  if k == "allure_results_dir" then { r with allure_results_dir := v }
  else if k == "html_report_path" then { r with html_report_path := v }
  else if k == "screenshot_dir" then { r with screenshot_dir := v }
  else if k == "video_dir" then { r with video_dir := v }
  else if k == "generate_allure" then { r with generate_allure := v }
  else if k == "generate_html" then { r with generate_html := v }
  else if k == "capture_screenshots" then { r with capture_screenshots := v }
  else if k == "capture_videos" then { r with capture_videos := v }
  else r

/-- `hasattr(self._config.performance, key)` over the declared data fields. -/
def PerformanceConfig.hasField (k : String) : Bool :=
  k == "default_concurrent_users" || k == "default_requests_per_user" ||
  k == "max_response_time_ms" || k == "min_success_rate" ||
  k == "ramp_up_time" || k == "results_dir"

/-- `setattr(self._config.performance, key, value)`. -/
def PerformanceConfig.setField (p : PerformanceConfig) (k : String) (v : Value) : PerformanceConfig :=
  if k == "default_concurrent_users" then { p with default_concurrent_users := v }
  else if k == "default_requests_per_user" then { p with default_requests_per_user := v }
  else if k == "max_response_time_ms" then { p with max_response_time_ms := v }
  else if k == "min_success_rate" then { p with min_success_rate := v }
  else if k == "ramp_up_time" then { p with ramp_up_time := v }
  else if k == "results_dir" then { p with results_dir := v }
  else p

/-! ### Dictionaries in insertion order -/

/-- Python `d[k] = v` on a dictionary kept in insertion order: update the
existing binding in place, or append a fresh one. -/
def dict_set (d : List (String × Value)) (k : String) (v : Value) : List (String × Value) :=
  if d.any (fun kv => kv.1 == k) then
    d.map (fun kv => if kv.1 == k then (kv.1, v) else kv)
  else
    d ++ [(k, v)]

/-- Python `d.update(new)`: assign every binding of `new` into `d` in order. -/
def dict_update (d new : List (String × Value)) : List (String × Value) :=
  new.foldl (fun acc kv => dict_set acc kv.1 kv.2) d

/-! ### Parsed configuration files and `_merge_config` -/

/-- The parsed content of a configuration file, as `_merge_config` consumes
it: for each of the six recognised top-level section names, the section's
key/value pairs in insertion order when the name is present.  Unrecognised
top-level names are ignored by `_merge_config` and therefore not
represented. -/
structure ConfigData where
  database : Option (List (String × Value)) := none
  api : Option (List (String × Value)) := none
  browser : Option (List (String × Value)) := none
  report : Option (List (String × Value)) := none
  performance : Option (List (String × Value)) := none
  custom : Option (List (String × Value)) := none
  deriving DecidableEq, Repr

/-- The empty mapping `{}` (also what an empty parse normalises to). -/
def emptyConfigData : ConfigData := {}

/-- `for key, value in items: if hasattr(section, key): setattr(section, key, value)`. -/
def merge_fields {α : Type} (has : String → Bool) (set : α → String → Value → α)
    (a : α) (items : List (String × Value)) : α :=
  items.foldl (fun a kv => if has kv.1 then set a kv.1 kv.2 else a) a

/-- `ConfigManager._merge_config`: merge one parsed file into the tree,
section by section in source order; `custom` merges as a dictionary
update.  (The source's early return on an empty mapping is behaviourally
the identity, as is merging a mapping with every section absent.) -/
def merge_config (c : TestConfig) (d : ConfigData) : TestConfig :=
  let c := match d.database with
    | some items => { c with database := merge_fields DatabaseConfig.hasField DatabaseConfig.setField c.database items }
    | none => c
  let c := match d.api with
    | some items => { c with api := merge_fields APIConfig.hasField APIConfig.setField c.api items }
    | none => c
  let c := match d.browser with
    | some items => { c with browser := merge_fields BrowserConfig.hasField BrowserConfig.setField c.browser items }
    | none => c
  let c := match d.report with
    | some items => { c with report := merge_fields ReportConfig.hasField ReportConfig.setField c.report items }
    | none => c
  let c := match d.performance with
    | some items => { c with performance := merge_fields PerformanceConfig.hasField PerformanceConfig.setField c.performance items }
    | none => c
  match d.custom with
    | some items => { c with custom := dict_update c.custom items }
    | none => c

/-! ### Environment variables and `_apply_env_overrides` -/

/-- A process environment: name/value bindings, first binding wins. -/
abbrev Env : Type := List (String × String)

/-- `os.getenv(name)`. -/
def getenv (e : Env) (name : String) : Option String :=
  (List.find? (fun kv => kv.1 == name) e).map (fun kv => kv.2)

/-- The guard `if os.getenv(name):` — a set variable whose value is the
empty string is falsy and behaves like an unset one. -/
def getenvTruthy (e : Env) (name : String) : Option String :=
  match getenv e name with
  | some s => if s == "" then none else some s
  | none => none

/-- `if os.getenv('DB_TYPE'): config.database.type = os.getenv('DB_TYPE')`. -/
def ov_db_type (e : Env) (c : TestConfig) : TestConfig :=
  match getenvTruthy e "DB_TYPE" with
  | some s => { c with database := { c.database with type := .vStr s } }
  | none => c

/-- `DB_HOST` override. -/
def ov_db_host (e : Env) (c : TestConfig) : TestConfig :=
  match getenvTruthy e "DB_HOST" with
  | some s => { c with database := { c.database with host := .vStr s } }
  | none => c

/-- `DB_PORT` override; `int()` failure is an escaping `ValueError`. -/
def ov_db_port (e : Env) (c : TestConfig) : Option TestConfig :=
  match getenvTruthy e "DB_PORT" with
  | some s => (pyInt s).map (fun n => { c with database := { c.database with port := .vInt n } })
  | none => some c

/-- `DB_NAME` override. -/
def ov_db_name (e : Env) (c : TestConfig) : TestConfig :=
  match getenvTruthy e "DB_NAME" with
  | some s => { c with database := { c.database with database := .vStr s } }
  | none => c

/-- `DB_USER` override. -/
def ov_db_user (e : Env) (c : TestConfig) : TestConfig :=
  match getenvTruthy e "DB_USER" with
  | some s => { c with database := { c.database with username := .vStr s } }
  | none => c

/-- `DB_PASSWORD` override. -/
def ov_db_password (e : Env) (c : TestConfig) : TestConfig :=
  match getenvTruthy e "DB_PASSWORD" with
  | some s => { c with database := { c.database with password := .vStr s } }
  | none => c

/-- `API_BASE_URL` override. -/
def ov_api_base_url (e : Env) (c : TestConfig) : TestConfig :=
  match getenvTruthy e "API_BASE_URL" with
  | some s => { c with api := { c.api with base_url := .vStr s } }
  | none => c

/-- `API_TIMEOUT` override (integer-valued). -/
def ov_api_timeout (e : Env) (c : TestConfig) : Option TestConfig :=
  match getenvTruthy e "API_TIMEOUT" with
  | some s => (pyInt s).map (fun n => { c with api := { c.api with timeout := .vInt n } })
  | none => some c

/-- `API_MAX_RETRIES` override (integer-valued). -/
def ov_api_max_retries (e : Env) (c : TestConfig) : Option TestConfig :=
  match getenvTruthy e "API_MAX_RETRIES" with
  | some s => (pyInt s).map (fun n => { c with api := { c.api with max_retries := .vInt n } })
  | none => some c

/-- `BROWSER_HEADLESS` override: `value.lower() == 'true'`. -/
def ov_browser_headless (e : Env) (c : TestConfig) : TestConfig :=
  match getenvTruthy e "BROWSER_HEADLESS" with
  | some s => { c with browser := { c.browser with headless := .vBool (s.toLower == "true") } }
  | none => c

/-- `BROWSER_TIMEOUT` override (integer-valued). -/
def ov_browser_timeout (e : Env) (c : TestConfig) : Option TestConfig :=
  match getenvTruthy e "BROWSER_TIMEOUT" with
  | some s => (pyInt s).map (fun n => { c with browser := { c.browser with timeout := .vInt n } })
  | none => some c

/-- `BROWSER_VIEWPORT_WIDTH` override (integer-valued). -/
def ov_browser_viewport_width (e : Env) (c : TestConfig) : Option TestConfig :=
  match getenvTruthy e "BROWSER_VIEWPORT_WIDTH" with
  | some s => (pyInt s).map (fun n => { c with browser := { c.browser with viewport_width := .vInt n } })
  | none => some c

/-- `BROWSER_VIEWPORT_HEIGHT` override (integer-valued). -/
def ov_browser_viewport_height (e : Env) (c : TestConfig) : Option TestConfig :=
  match getenvTruthy e "BROWSER_VIEWPORT_HEIGHT" with
  | some s => (pyInt s).map (fun n => { c with browser := { c.browser with viewport_height := .vInt n } })
  | none => some c

/-- `BROWSER_TYPE` override. -/
def ov_browser_type (e : Env) (c : TestConfig) : TestConfig :=
  match getenvTruthy e "BROWSER_TYPE" with
  | some s => { c with browser := { c.browser with browser_type := .vStr s } }
  | none => c

/-- `ConfigManager._apply_env_overrides`: the fourteen override blocks in
source order; `none` models an `int()` conversion error escaping the
method. -/
def apply_env_overrides (e : Env) (c : TestConfig) : Option TestConfig := do
  let c := ov_db_type e c
  let c := ov_db_host e c
  let c ← ov_db_port e c
  let c := ov_db_name e c
  let c := ov_db_user e c
  let c := ov_db_password e c
  let c := ov_api_base_url e c
  let c ← ov_api_timeout e c
  let c ← ov_api_max_retries e c
  let c := ov_browser_headless e c
  let c ← ov_browser_timeout e c
  let c ← ov_browser_viewport_width e c
  let c ← ov_browser_viewport_height e c
  let c := ov_browser_type e c
  some c

/-! ### File probing: `_read_config_file`, `_load_base_config`,
`_load_environment_config` -/

/-- What happens when the loader touches one existing candidate file:
opening the file (`with open(config_file, ...)`) can itself raise
(`.unreadable`), and an opened file has a parse outcome in its own format
(`.readable parse`, where `.error ()` means parsing raises and `.ok d`
already folds in the `yaml.safe_load(f) or \x7b\x7d` normalisation). -/
inductive FileOutcome where
  | unreadable : FileOutcome
  | readable (parse : Except Unit ConfigData) : FileOutcome

/-- The file system seen by the loader: candidate file name ↦ outcome
of touching that file. -/
abbrev FileSys : Type := List (String × FileOutcome)

/-- `config_file.exists()` plus the outcome of touching the file. -/
def fs_find (fs : FileSys) (name : String) : Option FileOutcome :=
  (List.find? (fun kv => kv.1 == name) fs).map (fun kv => kv.2)

/-- `ConfigManager._read_config_file` for a file with the given (lower-case)
extension.  The file is opened FIRST (source line 184), so an unreadable
file raises no matter the format; only then, a `.yaml`/`.yml` file with
PyYAML unavailable is degraded to the empty mapping (warning only,
nothing parsed); otherwise the file's parse outcome is returned; any
other extension raises `ValueError`. -/
def read_config_file (yamlAvailable : Bool) (suffix : String)
    (f : FileOutcome) : Except Unit ConfigData :=
  match f with
  | .unreadable => .error ()
  | .readable parse =>
    if suffix == "yaml" || suffix == "yml" then
      if !yamlAvailable then .ok emptyConfigData else parse
    else if suffix == "json" then
      parse
    else
      .error ()

/-- The shared candidate loop of `_load_base_config` and
`_load_environment_config`: skip missing files, merge the first candidate
whose read succeeds and stop (`break`), and on an exception log a warning
and continue with the next candidate. -/
def try_config_files (yamlAvailable : Bool) (fs : FileSys)
    (cands : List (String × String)) (c : TestConfig) : TestConfig :=
  match cands with
  | [] => c
  | (name, suffix) :: rest =>
    match fs_find fs name with
    | none => try_config_files yamlAvailable fs rest c
    | some content =>
      match read_config_file yamlAvailable suffix content with
      | .ok d => merge_config c d
      | .error _ => try_config_files yamlAvailable fs rest c

/-- `ConfigManager._load_base_config`: probe `config.yaml`, `config.yml`,
`config.json` in order. -/
def load_base_config (yamlAvailable : Bool) (fs : FileSys) (c : TestConfig) : TestConfig :=
  try_config_files yamlAvailable fs
    [("config.yaml", "yaml"), ("config.yml", "yml"), ("config.json", "json")] c

/-- `ConfigManager._load_environment_config`: probe `config.<env>.yaml`,
`config.<env>.yml`, `config.<env>.json` in order. -/
def load_environment_config (yamlAvailable : Bool) (fs : FileSys)
    (envTag : String) (c : TestConfig) : TestConfig :=
  try_config_files yamlAvailable fs
    [("config." ++ envTag ++ ".yaml", "yaml"),
     ("config." ++ envTag ++ ".yml", "yml"),
     ("config." ++ envTag ++ ".json", "json")] c

/-! ### Validation: `_validate_config` -/

/-- The accumulated violation messages of `ConfigManager._validate_config`,
in source order; `none` models the `TypeError` Python raises when one of
the ordered comparisons meets a non-numeric field value. -/
def validate_errors (c : TestConfig) : Option (List String) := do
  let errs : List String :=
    if valInStrList c.database.type ["sqlite", "mysql", "postgresql", "mongodb"] then []
    else ["不支持的数据库类型: " ++ pyStr c.database.type]
  let errs :=
    if valTruthy c.api.base_url then errs else errs ++ ["API base_url不能为空"]
  let apiTimeout ← valNum c.api.timeout
  let errs :=
    if apiTimeout ≤ 0 then errs ++ ["API timeout必须大于0"] else errs
  let errs :=
    if valInStrList c.browser.browser_type ["chromium", "firefox", "webkit"] then errs
    else errs ++ ["不支持的浏览器类型: " ++ pyStr c.browser.browser_type]
  let browserTimeout ← valNum c.browser.timeout
  let errs :=
    if browserTimeout ≤ 0 then errs ++ ["浏览器timeout必须大于0"] else errs
  let users ← valNum c.performance.default_concurrent_users
  let errs :=
    if users ≤ 0 then errs ++ ["并发用户数必须大于0"] else errs
  let rate ← valNum c.performance.min_success_rate
  let errs :=
    if rate < 0 ∨ rate > 100 then errs ++ ["最小成功率必须在0-100之间"] else errs
  some errs

/-- The aggregated `ValueError` message raised on validation failure:
a header line followed by one `- `-prefixed message per violation. -/
def mk_validation_error (errs : List String) : String :=
  "配置验证失败:\n" ++ String.intercalate "\n" (errs.map (fun e => "- " ++ e))

/-- How `load` can fail. -/
inductive LoadError where
  | envCrash : LoadError
  | typeErrorInValidation : LoadError
  | validationFailed (msg : String) : LoadError
  deriving DecidableEq, Repr

/-- The tail of `_load_config`: run validation on the merged tree and
either expose it or raise the aggregated `ValueError`. -/
def finish_validation (c : TestConfig) : Except LoadError TestConfig :=
  match validate_errors c with
  | none => .error .typeErrorInValidation
  | some errs =>
    if errs.isEmpty then .ok c
    else .error (.validationFailed (mk_validation_error errs))

/-! ### The load pipeline: `__init__` / `_load_config` -/

/-- `ConfigManager._load_config` (the tree's `environment` field having
been set from `TEST_ENV` by `__init__` beforehand): defaults, then base
file, then environment file, then environment-variable overrides, then
validation. -/
def load_config (yamlAvailable : Bool) (fs : FileSys) (e : Env)
    (envTag : String) : Except LoadError TestConfig :=
  let c0 : TestConfig := { defaultTestConfig with environment := envTag }
  let c1 := load_base_config yamlAvailable fs c0
  let c2 := load_environment_config yamlAvailable fs envTag c1
  match apply_env_overrides e c2 with
  | none => .error .envCrash
  | some c3 => finish_validation c3

/-- `ConfigManager._load_env_file`: when the `.env` file exists
(`envFileVars = some vars`) and python-dotenv is available, its bindings
fill gaps in the process environment without overwriting existing
variables; otherwise the environment is untouched. -/
def load_env_file (dotenvAvailable : Bool) (envFileVars : Option (List (String × String)))
    (e : Env) : Env :=
  match envFileVars with
  | some vars =>
    if dotenvAvailable then
      vars.foldl (fun acc kv => if (getenv acc kv.1).isSome then acc else acc ++ [kv]) e
    else e
  | none => e

/-- `ConfigManager.__init__`: load the `.env` file, determine the active
environment from `TEST_ENV` (defaulting to `"test"`), and run
`_load_config`. -/
def manager_init (yamlAvailable dotenvAvailable : Bool)
    (envFileVars : Option (List (String × String))) (fs : FileSys)
    (procEnv : Env) : Except LoadError TestConfig :=
  let e := load_env_file dotenvAvailable envFileVars procEnv
  let envTag := (getenv e "TEST_ENV").getD "test"
  load_config yamlAvailable fs e envTag

/-! ### `update_config` and `save_config` -/

/-- `ConfigManager.update_config`: apply a single-field update when the
section/key pair is recognised (any key is accepted for `custom`), and
raise `ValueError` otherwise — no validation is re-run. -/
def update_config (c : TestConfig) (sec key : String) (value : Value) :
    Except String TestConfig :=
  if sec == "database" && DatabaseConfig.hasField key then
    .ok { c with database := DatabaseConfig.setField c.database key value }
  else if sec == "api" && APIConfig.hasField key then
    .ok { c with api := APIConfig.setField c.api key value }
  else if sec == "browser" && BrowserConfig.hasField key then
    .ok { c with browser := BrowserConfig.setField c.browser key value }
  else if sec == "report" && ReportConfig.hasField key then
    .ok { c with report := ReportConfig.setField c.report key value }
  else if sec == "performance" && PerformanceConfig.hasField key then
    .ok { c with performance := PerformanceConfig.setField c.performance key value }
  else if sec == "custom" then
    .ok { c with custom := dict_set c.custom key value }
  else
    .error ("未知的配置节或键: " ++ sec ++ "." ++ key)

/-- The mapping `ConfigManager.save_config` serialises: every section with
every field in source order — except that `database.password` is not
written. -/
def save_config_data (c : TestConfig) : ConfigData where
  database := some
    [("type", c.database.type),
     ("host", c.database.host),
     ("port", c.database.port),
     ("database", c.database.database),
     ("username", c.database.username),
     ("connection_pool_size", c.database.connection_pool_size),
     ("timeout", c.database.timeout)]
  api := some
    [("base_url", c.api.base_url),
     ("timeout", c.api.timeout),
     ("max_retries", c.api.max_retries),
     ("retry_delay", c.api.retry_delay),
     ("verify_ssl", c.api.verify_ssl),
     ("headers", c.api.headers)]
  browser := some
    [("headless", c.browser.headless),
     ("timeout", c.browser.timeout),
     ("viewport_width", c.browser.viewport_width),
     ("viewport_height", c.browser.viewport_height),
     ("browser_type", c.browser.browser_type),
     ("slow_mo", c.browser.slow_mo),
     ("devtools", c.browser.devtools),
     ("args", c.browser.args)]
  report := some
    [("allure_results_dir", c.report.allure_results_dir),
     ("html_report_path", c.report.html_report_path),
     ("screenshot_dir", c.report.screenshot_dir),
     ("video_dir", c.report.video_dir),
     ("generate_allure", c.report.generate_allure),
     ("generate_html", c.report.generate_html),
     ("capture_screenshots", c.report.capture_screenshots),
     ("capture_videos", c.report.capture_videos)]
  performance := some
    [("default_concurrent_users", c.performance.default_concurrent_users),
     ("default_requests_per_user", c.performance.default_requests_per_user),
     ("max_response_time_ms", c.performance.max_response_time_ms),
     ("min_success_rate", c.performance.min_success_rate),
     ("ramp_up_time", c.performance.ramp_up_time),
     ("results_dir", c.performance.results_dir)]
  custom := some c.custom

/-! ### Spec-side definitions (for comparison against the code) -/

/-- The six hard invariants exactly as the claims and §3 of the spec
enumerate them — a spec-side definition, written from the spec's words
for comparison with the code-side `validate_errors`. -/
def spec_six_invariants (c : TestConfig) : Bool :=
  valInStrList c.database.type ["sqlite", "mysql", "postgresql", "mongodb"] &&
  valInStrList c.browser.browser_type ["chromium", "firefox", "webkit"] &&
  (match valNum c.api.timeout with | some q => decide (0 < q) | none => false) &&
  (match valNum c.browser.timeout with | some q => decide (0 < q) | none => false) &&
  (match valNum c.performance.default_concurrent_users with | some q => decide (0 < q) | none => false) &&
  (match valNum c.performance.min_success_rate with | some q => decide (0 ≤ q ∧ q ≤ 100) | none => false)

/-- All environment variables this engine recognises (the environment
selector plus the fourteen override variables). -/
def recognized_env_vars : List String :=
  ["TEST_ENV", "DB_TYPE", "DB_HOST", "DB_PORT", "DB_NAME", "DB_USER", "DB_PASSWORD",
   "API_BASE_URL", "API_TIMEOUT", "API_MAX_RETRIES", "BROWSER_HEADLESS",
   "BROWSER_TIMEOUT", "BROWSER_VIEWPORT_WIDTH", "BROWSER_VIEWPORT_HEIGHT", "BROWSER_TYPE"]

/-- The fourteen recognised override environment variables. -/
def override_env_vars : List String :=
  ["DB_TYPE", "DB_HOST", "DB_PORT", "DB_NAME", "DB_USER", "DB_PASSWORD",
   "API_BASE_URL", "API_TIMEOUT", "API_MAX_RETRIES", "BROWSER_HEADLESS",
   "BROWSER_TIMEOUT", "BROWSER_VIEWPORT_WIDTH", "BROWSER_VIEWPORT_HEIGHT", "BROWSER_TYPE"]

/-- Remove from an environment every binding whose value is the empty
string. -/
def env_drop_empty (e : Env) : Env :=
  e.filter (fun kv => !(kv.2 == ""))

/-! ### The override table and the resolution pipeline -/

/-- One row of the fixed table of recognised override environment
variables: the variable's name, the configuration-file section and key
feeding the same leaf field in the file layers, the leaf field itself,
and the type coercion `_apply_env_overrides` applies to the variable's
value (`none` when its `int()` conversion raises). -/
structure OverrideEntry where
  var : String
  sec : String
  key : String
  proj : TestConfig → Value
  coerce : String → Option Value

/-- The fixed table of the fourteen recognised override variables, in
source order, each mapping to exactly one leaf field. -/
def override_table : List OverrideEntry :=
  [⟨"DB_TYPE", "database", "type", fun c => c.database.type, fun s => some (.vStr s)⟩,
   ⟨"DB_HOST", "database", "host", fun c => c.database.host, fun s => some (.vStr s)⟩,
   ⟨"DB_PORT", "database", "port", fun c => c.database.port, fun s => (pyInt s).map .vInt⟩,
   ⟨"DB_NAME", "database", "database", fun c => c.database.database, fun s => some (.vStr s)⟩,
   ⟨"DB_USER", "database", "username", fun c => c.database.username, fun s => some (.vStr s)⟩,
   ⟨"DB_PASSWORD", "database", "password", fun c => c.database.password, fun s => some (.vStr s)⟩,
   ⟨"API_BASE_URL", "api", "base_url", fun c => c.api.base_url, fun s => some (.vStr s)⟩,
   ⟨"API_TIMEOUT", "api", "timeout", fun c => c.api.timeout, fun s => (pyInt s).map .vInt⟩,
   ⟨"API_MAX_RETRIES", "api", "max_retries", fun c => c.api.max_retries, fun s => (pyInt s).map .vInt⟩,
   ⟨"BROWSER_HEADLESS", "browser", "headless", fun c => c.browser.headless,
     fun s => some (.vBool (s.toLower == "true"))⟩,
   ⟨"BROWSER_TIMEOUT", "browser", "timeout", fun c => c.browser.timeout, fun s => (pyInt s).map .vInt⟩,
   ⟨"BROWSER_VIEWPORT_WIDTH", "browser", "viewport_width", fun c => c.browser.viewport_width,
     fun s => (pyInt s).map .vInt⟩,
   ⟨"BROWSER_VIEWPORT_HEIGHT", "browser", "viewport_height", fun c => c.browser.viewport_height,
     fun s => (pyInt s).map .vInt⟩,
   ⟨"BROWSER_TYPE", "browser", "browser_type", fun c => c.browser.browser_type, fun s => some (.vStr s)⟩]

/-- A parsed configuration file holding a single recognised section. -/
def section_data (sec : String) (items : List (String × Value)) : ConfigData :=
  if sec == "database" then { database := some items }
  else if sec == "api" then { api := some items }
  else if sec == "browser" then { browser := some items }
  else if sec == "report" then { report := some items }
  else if sec == "performance" then { performance := some items }
  else { custom := some items }

/-- The resolution prefix of `_load_config`: defaults, then base file,
then environment file, then environment-variable overrides — everything
before validation.  `load_config` is validation applied to this tree
(see `load_config_eq_resolve`). -/
def resolve_tree (yamlAvailable : Bool) (fs : FileSys) (e : Env) (envTag : String) :
    Option TestConfig :=
  apply_env_overrides e (load_environment_config yamlAvailable fs envTag
    (load_base_config yamlAvailable fs { defaultTestConfig with environment := envTag }))

end PWConfig

deriving instance DecidableEq for Except

namespace PWConfig

/-! ### Helper lemmas -/

theorem merge_config_empty (c : TestConfig) : merge_config c emptyConfigData = c := rfl

theorem mem_ite_append_of_mem {a : String} {l m : List String} (p : Prop) [Decidable p]
    (h : a ∈ l) : a ∈ (if p then l ++ m else l) := by
  split
  · exact List.mem_append_left m h
  · exact h

theorem mem_ite_append_of_mem_rev {a : String} {l m : List String} (p : Prop) [Decidable p]
    (h : a ∈ l) : a ∈ (if p then l else l ++ m) := by
  split
  · exact h
  · exact List.mem_append_left m h

theorem finish_validation_ok {x y : TestConfig} (h : finish_validation x = .ok y) : y = x := by
  unfold finish_validation at h
  split at h
  · cases h
  · split at h
    · exact (Except.ok.inj h).symm
    · cases h

theorem dict_set_append (acc : List (String × Value)) (k : String) (v : Value)
    (h : acc.any (fun kv => kv.1 == k) = false) :
    dict_set acc k v = acc ++ [(k, v)] := by
  simp [dict_set, h]

theorem dict_update_of_disjoint (l : List (String × Value)) :
    ∀ acc : List (String × Value),
      (∀ k ∈ l.map Prod.fst, acc.any (fun kv => kv.1 == k) = false) →
      (l.map Prod.fst).Nodup → dict_update acc l = acc ++ l := by
  induction l with
  | nil => intro acc _ _; simp [dict_update]
  | cons hd tl ih =>
    intro acc hdis hnd
    have hhd : acc.any (fun kv => kv.1 == hd.1) = false :=
      hdis hd.1 (by simp)
    have hstep : dict_update acc (hd :: tl) = dict_update (acc ++ [hd]) tl := by
      simp [dict_update, List.foldl_cons, dict_set_append acc hd.1 hd.2 hhd]
    rw [hstep]
    have hnd2 : hd.1 ∉ tl.map Prod.fst ∧ (tl.map Prod.fst).Nodup := by
      rw [List.map_cons, List.nodup_cons] at hnd
      exact hnd
    have hnd' : (tl.map Prod.fst).Nodup := hnd2.2
    have hhdnot : hd.1 ∉ tl.map Prod.fst := hnd2.1
    have hdis' : ∀ k ∈ tl.map Prod.fst, (acc ++ [hd]).any (fun kv => kv.1 == k) = false := by
      intro k hk
      have h1 : acc.any (fun kv => kv.1 == k) = false := hdis k (by simp [hk])
      have h2 : (hd.1 == k) = false := by
        apply beq_eq_false_iff_ne.mpr
        intro hkeq
        exact hhdnot (hkeq ▸ hk)
      simp [List.any_append, h1, h2]
    rw [ih (acc ++ [hd]) hdis' hnd']
    simp

theorem dict_update_nil (l : List (String × Value)) (h : (l.map Prod.fst).Nodup) :
    dict_update [] l = l := by
  simpa using dict_update_of_disjoint l [] (by intro k _; rfl) h

theorem getenv_cons (kv : String × String) (tl : Env) (k : String) :
    getenv (kv :: tl) k = if kv.1 == k then some kv.2 else getenv tl k := by
  by_cases h : kv.1 = k
  · simp [getenv, List.find?, h]
  · have hb : (kv.1 == k) = false := beq_eq_false_iff_ne.mpr h
    simp [getenv, List.find?, hb]

theorem getenv_eq_none_of_not_mem (e : Env) (k : String)
    (h : k ∉ e.map Prod.fst) : getenv e k = none := by
  induction e with
  | nil => rfl
  | cons hd tl ih =>
    have h1 : hd.1 ≠ k := fun hkeq => h (by simp [hkeq])
    have h2 : k ∉ tl.map Prod.fst := fun hk => h (by simp [hk])
    rw [getenv_cons, if_neg (by simp [h1]), ih h2]

theorem getenvTruthy_cons (kv : String × String) (tl : Env) (k : String) :
    getenvTruthy (kv :: tl) k =
      if kv.1 == k then (if kv.2 == "" then none else some kv.2) else getenvTruthy tl k := by
  unfold getenvTruthy
  rw [getenv_cons]
  by_cases h : (kv.1 == k) = true
  · rw [if_pos h, if_pos h]
  · rw [if_neg h, if_neg h]

theorem getenvTruthy_drop_empty (e : Env) (hnd : (e.map Prod.fst).Nodup) (k : String) :
    getenvTruthy (env_drop_empty e) k = getenvTruthy e k := by
  induction e with
  | nil => rfl
  | cons hd tl ih =>
    have hnd2 : hd.1 ∉ tl.map Prod.fst ∧ (tl.map Prod.fst).Nodup := by
      rw [List.map_cons, List.nodup_cons] at hnd
      exact hnd
    have ih' := ih hnd2.2
    by_cases hv : hd.2 = ""
    · have hD : env_drop_empty (hd :: tl) = env_drop_empty tl := by
        simp [env_drop_empty, List.filter_cons, hv]
      rw [hD, getenvTruthy_cons]
      by_cases hk : (hd.1 == k) = true
      · rw [if_pos hk, hv]
        have hk' : hd.1 = k := beq_iff_eq.mp hk
        have hknot : k ∉ tl.map Prod.fst := by rw [← hk']; exact hnd2.1
        have hkk : k ∉ (env_drop_empty tl).map Prod.fst := by
          intro hmem
          rcases List.mem_map.mp hmem with ⟨kv, hkv, hfst⟩
          exact hknot (List.mem_map.mpr ⟨kv, List.mem_of_mem_filter hkv, hfst⟩)
        have hzero : getenv (env_drop_empty tl) k = none :=
          getenv_eq_none_of_not_mem _ _ hkk
        unfold getenvTruthy
        rw [hzero]
        simp
      · rw [if_neg hk]
        exact ih'
    · have hD : env_drop_empty (hd :: tl) = hd :: env_drop_empty tl := by
        simp [env_drop_empty, List.filter_cons, hv]
      rw [hD, getenvTruthy_cons, getenvTruthy_cons]
      by_cases hk : (hd.1 == k) = true
      · rw [if_pos hk, if_pos hk]
      · rw [if_neg hk, if_neg hk]
        exact ih'

theorem getenvTruthy_eq_none (e : Env) (n : String) (h : getenv e n = none) :
    getenvTruthy e n = none := by
  unfold getenvTruthy
  rw [h]

theorem apply_env_overrides_id (e : Env) (c : TestConfig)
    (h : ∀ n ∈ override_env_vars, getenvTruthy e n = none) :
    apply_env_overrides e c = some c := by
  have g1 := h "DB_TYPE" (by decide)
  have g2 := h "DB_HOST" (by decide)
  have g3 := h "DB_PORT" (by decide)
  have g4 := h "DB_NAME" (by decide)
  have g5 := h "DB_USER" (by decide)
  have g6 := h "DB_PASSWORD" (by decide)
  have g7 := h "API_BASE_URL" (by decide)
  have g8 := h "API_TIMEOUT" (by decide)
  have g9 := h "API_MAX_RETRIES" (by decide)
  have g10 := h "BROWSER_HEADLESS" (by decide)
  have g11 := h "BROWSER_TIMEOUT" (by decide)
  have g12 := h "BROWSER_VIEWPORT_WIDTH" (by decide)
  have g13 := h "BROWSER_VIEWPORT_HEIGHT" (by decide)
  have g14 := h "BROWSER_TYPE" (by decide)
  simp [apply_env_overrides, ov_db_type, ov_db_host, ov_db_port, ov_db_name, ov_db_user,
        ov_db_password, ov_api_base_url, ov_api_timeout, ov_api_max_retries,
        ov_browser_headless, ov_browser_timeout, ov_browser_viewport_width,
        ov_browser_viewport_height, ov_browser_type,
        g1, g2, g3, g4, g5, g6, g7, g8, g9, g10, g11, g12, g13, g14]

theorem load_config_of_overrides (ya : Bool) (fs : FileSys) (e : Env) (tag : String)
    (c : TestConfig)
    (hc : load_environment_config ya fs tag
        (load_base_config ya fs { defaultTestConfig with environment := tag }) = c)
    (hov : apply_env_overrides e c = some c) :
    load_config ya fs e tag = finish_validation c := by
  simp only [load_config]
  rw [hc, hov]

/-! ### The claims -/

/-- C2, counterexample: the merged tree `defaults + api.base_url=""`
satisfies all six invariants the claim enumerates, yet `load` fails —
validation also requires a non-empty `api.base_url`, so "load fails iff
one of the six invariants is violated" is false on the code. -/
theorem claim_C2_counterexample :
    spec_six_invariants
      { defaultTestConfig with api := { defaultTestConfig.api with base_url := .vStr "" } } = true
    ∧ manager_init true true none
        [("config.yaml", .readable (.ok { api := some [("base_url", .vStr "")] }))] [] =
      .error (.validationFailed "配置验证失败:\n- API base_url不能为空") := by
  constructor
  · decide
  · decide

/-- C4, counterexample: with the YAML parser unavailable, an existing
`config.yaml` and an existing `config.json` (setting `api.timeout=99`)
in the same layer, the probe merges nothing at all — the unavailable
format is degraded to the empty mapping, counted as a successful load,
and `config.json` is never consulted, contradicting the claim that a
later candidate in the extension priority order is still merged. -/
theorem claim_C4_counterexample :
    load_base_config false
      [("config.yaml", .readable (.ok { api := some [("timeout", .vInt 55)] })),
       ("config.json", .readable (.ok { api := some [("timeout", .vInt 99)] }))]
      defaultTestConfig = defaultTestConfig
    ∧ (merge_config defaultTestConfig { api := some [("timeout", .vInt 99)] }).api.timeout = .vInt 99
    ∧ defaultTestConfig.api.timeout ≠ .vInt 99 := by
  refine ⟨rfl, rfl, ?_⟩
  decide

/-- C4, amended: when an OPENABLE candidate file's parser capability is
unavailable (readable YAML file present, PyYAML missing), the file is
degraded to the empty mapping with a warning and is not fatal, but it
counts as a successful load: the probe stops and later candidates in the
same layer are NOT consulted.  The probe proceeds to the next candidate
exactly when touching the candidate raises — either opening it fails
(the file is opened before the parser-availability check, so this
proceeds even with PyYAML missing) or parsing it fails (possible only
when its parser is available). -/
theorem claim_C4_amended (fs : FileSys) (c : TestConfig) :
    (∀ parse, fs_find fs "config.yaml" = some (.readable parse) →
      load_base_config false fs c = c)
    ∧ (∀ d : ConfigData, fs_find fs "config.yaml" = some .unreadable →
        fs_find fs "config.yml" = none →
        fs_find fs "config.json" = some (.readable (.ok d)) →
        ∀ ya, load_base_config ya fs c = merge_config c d)
    ∧ (∀ d : ConfigData, fs_find fs "config.yaml" = some (.readable (.error ())) →
        fs_find fs "config.yml" = none →
        fs_find fs "config.json" = some (.readable (.ok d)) →
        load_base_config true fs c = merge_config c d) := by
  refine ⟨?_, ?_, ?_⟩
  · intro parse h
    unfold load_base_config try_config_files
    rw [h]
    rfl
  · intro d h1 h2 h3 ya
    unfold load_base_config try_config_files
    rw [h1]
    show try_config_files ya fs [("config.yml", "yml"), ("config.json", "json")] c =
      merge_config c d
    unfold try_config_files
    rw [h2]
    show try_config_files ya fs [("config.json", "json")] c = merge_config c d
    unfold try_config_files
    rw [h3]
    rfl
  · intro d h1 h2 h3
    unfold load_base_config try_config_files
    rw [h1]
    show try_config_files true fs [("config.yml", "yml"), ("config.json", "json")] c =
      merge_config c d
    unfold try_config_files
    rw [h2]
    show try_config_files true fs [("config.json", "json")] c = merge_config c d
    unfold try_config_files
    rw [h3]
    rfl

/-- C4, witness for the amended claim at concrete file systems: a readable
yaml with PyYAML missing stops the probe; an unreadable yaml (even with
PyYAML missing) and a yaml that fails to parse (PyYAML present) both let
the probe proceed to `config.json`. -/
theorem claim_C4_witness :
    load_base_config false
      [("config.yaml", .readable (.ok { api := some [("timeout", .vInt 55)] })),
       ("config.json", .readable (.ok { api := some [("timeout", .vInt 99)] }))]
      defaultTestConfig = defaultTestConfig
    ∧ load_base_config false
        [("config.yaml", .unreadable),
         ("config.json", .readable (.ok { api := some [("timeout", .vInt 99)] }))]
        defaultTestConfig =
      merge_config defaultTestConfig { api := some [("timeout", .vInt 99)] }
    ∧ load_base_config true
        [("config.yaml", .readable (.error ())),
         ("config.json", .readable (.ok { api := some [("timeout", .vInt 99)] }))]
        defaultTestConfig =
      merge_config defaultTestConfig { api := some [("timeout", .vInt 99)] } :=
  ⟨(claim_C4_amended
      [("config.yaml", .readable (.ok { api := some [("timeout", .vInt 55)] })),
       ("config.json", .readable (.ok { api := some [("timeout", .vInt 99)] }))]
      defaultTestConfig).1 (.ok { api := some [("timeout", .vInt 55)] }) rfl,
   (claim_C4_amended
      [("config.yaml", .unreadable),
       ("config.json", .readable (.ok { api := some [("timeout", .vInt 99)] }))]
      defaultTestConfig).2.1 { api := some [("timeout", .vInt 99)] } rfl rfl rfl false,
   (claim_C4_amended
      [("config.yaml", .readable (.error ())),
       ("config.json", .readable (.ok { api := some [("timeout", .vInt 99)] }))]
      defaultTestConfig).2.2 { api := some [("timeout", .vInt 99)] } rfl rfl rfl⟩

/-- C5: `update_config` on section `database` with an unknown key raises
`ValueError` (the model returns the error without producing any tree, so
no field of any section is changed), while `update_config` on `custom`
succeeds for every key and value and changes only the `custom` mapping. -/
theorem claim_C5_update_field_rejection (c : TestConfig) (k : String) (v : Value) :
    update_config c "database" "nonexistent_field" v =
      .error "未知的配置节或键: database.nonexistent_field"
    ∧ update_config c "custom" k v = .ok { c with custom := dict_set c.custom k v } :=
  ⟨rfl, rfl⟩

/-- C8: `update_config` never re-runs validation — for every known
section/key pair it applies the value in place and returns without
error, even when the value violates a hard invariant; in particular
`update_config "database" "type" "oracle"` succeeds and the resulting
tree holds `database.type = "oracle"`. -/
theorem claim_C8_update_no_revalidation (c : TestConfig) (key : String) (v : Value) :
    (DatabaseConfig.hasField key = true →
      update_config c "database" key v =
        .ok { c with database := DatabaseConfig.setField c.database key v })
    ∧ (APIConfig.hasField key = true →
      update_config c "api" key v =
        .ok { c with api := APIConfig.setField c.api key v })
    ∧ (BrowserConfig.hasField key = true →
      update_config c "browser" key v =
        .ok { c with browser := BrowserConfig.setField c.browser key v })
    ∧ (ReportConfig.hasField key = true →
      update_config c "report" key v =
        .ok { c with report := ReportConfig.setField c.report key v })
    ∧ (PerformanceConfig.hasField key = true →
      update_config c "performance" key v =
        .ok { c with performance := PerformanceConfig.setField c.performance key v })
    ∧ update_config c "database" "type" (.vStr "oracle") =
        .ok { c with database := { c.database with type := .vStr "oracle" } } := by
  refine ⟨?_, ?_, ?_, ?_, ?_, rfl⟩ <;> intro h <;> simp [update_config, h]

/-- C8, witness: updating `database.type` to the invalid value `"oracle"`
succeeds on the default tree. -/
theorem claim_C8_witness :
    update_config defaultTestConfig "database" "type" (.vStr "oracle") =
      .ok { defaultTestConfig with
            database := { defaultTestConfig.database with type := .vStr "oracle" } } :=
  (claim_C8_update_no_revalidation defaultTestConfig "type" (.vStr "oracle")).1 (by decide)

/-- C6: with no configuration files, no environment-variable file and none
of the recognised environment variables set, `load` succeeds and returns
exactly the tree of hard-coded defaults, whose `environment` is `"test"`. -/
theorem claim_C6_default_completeness (ya da : Bool) (e : Env)
    (h : ∀ n ∈ recognized_env_vars, getenv e n = none) :
    manager_init ya da none [] e = .ok defaultTestConfig
    ∧ defaultTestConfig.environment = "test" := by
  refine ⟨?_, rfl⟩
  have hT := h "TEST_ENV" (by decide)
  have hov : apply_env_overrides e defaultTestConfig = some defaultTestConfig := by
    apply apply_env_overrides_id
    intro n hn
    apply getenvTruthy_eq_none
    apply h n
    rw [show recognized_env_vars = "TEST_ENV" :: override_env_vars from rfl]
    exact List.mem_cons_of_mem _ hn
  have hbase : load_environment_config ya [] "test"
      (load_base_config ya [] { defaultTestConfig with environment := "test" }) =
      defaultTestConfig := rfl
  have hload : load_config ya [] e "test" = finish_validation defaultTestConfig :=
    load_config_of_overrides ya [] e "test" defaultTestConfig hbase hov
  simp only [manager_init, load_env_file]
  rw [hT]
  simp only [Option.getD]
  rw [hload]
  decide

/-- C6, witness: the empty environment. -/
theorem claim_C6_witness :
    manager_init true true none [] [] = .ok defaultTestConfig
    ∧ defaultTestConfig.environment = "test" :=
  claim_C6_default_completeness true true [] (by decide)

/-! ### Further helper lemmas for validation reasoning -/

theorem ite_self_append {l : List String} {m : String} (p : Prop) [Decidable p] :
    (if p then l else l ++ [m]) = l ++ (if p then [] else [m]) := by
  split <;> simp

theorem ite_append_self {l : List String} {m : String} (p : Prop) [Decidable p] :
    (if p then l ++ [m] else l) = l ++ (if p then [m] else []) := by
  split <;> simp

theorem ite_nil_eq_nil_iff {m : String} (p : Prop) [Decidable p] :
    ((if p then ([] : List String) else [m]) = []) ↔ p := by
  split <;> simp_all

theorem ite_nil_eq_nil_iff_rev {m : String} (p : Prop) [Decidable p] :
    ((if p then [m] else ([] : List String)) = []) ↔ ¬p := by
  split <;> simp_all

theorem validate_default_api_timeout (m : Int) (hm : 0 < m) :
    validate_errors
      { defaultTestConfig with api := { defaultTestConfig.api with timeout := .vInt m } } =
      some [] := by
  have h1 : ¬(((m : Int) : Rat) ≤ 0) := not_le.mpr (by exact_mod_cast hm)
  simp [validate_errors, defaultTestConfig, valNum, valInStrList, valTruthy, h1]
  norm_num

theorem db_type_message_mem {c : TestConfig} {errs : List String}
    (hv : validate_errors c = some errs)
    (hbad : valInStrList c.database.type ["sqlite", "mysql", "postgresql", "mongodb"] = false) :
    ("不支持的数据库类型: " ++ pyStr c.database.type) ∈ errs := by
  unfold validate_errors at hv
  rcases hA : valNum c.api.timeout with _ | t <;> rw [hA] at hv
  · cases hv
  rcases hB : valNum c.browser.timeout with _ | u <;> rw [hB] at hv
  · cases hv
  rcases hU : valNum c.performance.default_concurrent_users with _ | w <;> rw [hU] at hv
  · cases hv
  rcases hR : valNum c.performance.min_success_rate with _ | r <;> rw [hR] at hv
  · cases hv
  have he := (Option.some.inj hv).symm
  subst he
  apply mem_ite_append_of_mem
  apply mem_ite_append_of_mem
  apply mem_ite_append_of_mem
  apply mem_ite_append_of_mem_rev
  apply mem_ite_append_of_mem
  apply mem_ite_append_of_mem_rev
  simp [hbad]

theorem success_rate_message_mem {c : TestConfig} {errs : List String} {r : Rat}
    (hv : validate_errors c = some errs)
    (hR : valNum c.performance.min_success_rate = some r)
    (hbad : r < 0 ∨ r > 100) :
    "最小成功率必须在0-100之间" ∈ errs := by
  unfold validate_errors at hv
  rcases hA : valNum c.api.timeout with _ | t <;> rw [hA] at hv
  · cases hv
  rcases hB : valNum c.browser.timeout with _ | u <;> rw [hB] at hv
  · cases hv
  rcases hU : valNum c.performance.default_concurrent_users with _ | w <;> rw [hU] at hv
  · cases hv
  rw [hR] at hv
  have he := (Option.some.inj hv).symm
  subst he
  rw [if_pos hbad]
  exact List.mem_append_right _ (by simp)

theorem load_config_steps (ya : Bool) (fs : FileSys) (e : Env) (tag : String) (c3 : TestConfig)
    (hc : apply_env_overrides e (load_environment_config ya fs tag
        (load_base_config ya fs { defaultTestConfig with environment := tag })) = some c3) :
    load_config ya fs e tag = finish_validation c3 := by
  simp only [load_config]
  rw [hc]

theorem finish_validation_of_errors {c : TestConfig} {errs : List String}
    (hv : validate_errors c = some errs) (hne : errs ≠ []) :
    finish_validation c = .error (.validationFailed (mk_validation_error errs)) := by
  unfold finish_validation
  rw [hv]
  show (if errs.isEmpty = true then Except.ok c
        else Except.error (LoadError.validationFailed (mk_validation_error errs))) =
    Except.error (LoadError.validationFailed (mk_validation_error errs))
  rw [if_neg (fun hemp => hne (List.isEmpty_iff.mp hemp))]

theorem getenvTruthy_single (x s : String) (hs : (s == "") = false) :
    getenvTruthy [(x, s)] x = some s := by
  unfold getenvTruthy getenv
  simp [List.find?, hs]

theorem load_config_eq_resolve (ya : Bool) (fs : FileSys) (e : Env) (tag : String) :
    load_config ya fs e tag =
      match resolve_tree ya fs e tag with
      | none => Except.error LoadError.envCrash
      | some c => finish_validation c := rfl

/-- C1: layer precedence.  First, the spec's `api.timeout` scenario through
a full `load`: with a base file setting it to `a`, an environment-specific
file setting it to `b`, and the environment variable `API_TIMEOUT` holding
a string parsing to `n` (all positive so validation passes), the resolved
value is `n`; with the variable absent it is `b`; with the environment
file also absent it is `a`.  Second, the claim's general clause: for EVERY
leaf field covered by all four layers — each of the fourteen rows of the
override table — when the base file, the environment file and the
environment variable all set that field, the resolved tree (the resolution
prefix of `load`, see `load_config_eq_resolve`) carries the coerced
environment-variable value; with the variable absent, the environment
file's value; with the environment file also absent, the base file's
value: later layers win ties on every covered field. -/
theorem claim_C1_layer_precedence (a b n : Int) (s : String)
    (ha : 0 < a) (hb : 0 < b) (hn : 0 < n) (hs : s ≠ "") (hp : pyInt s = some n) :
    (manager_init true true none
        [("config.yaml", .readable (.ok { api := some [("timeout", .vInt a)] })),
         ("config.test.yaml", .readable (.ok { api := some [("timeout", .vInt b)] }))]
        [("API_TIMEOUT", s)] =
      .ok { defaultTestConfig with api := { defaultTestConfig.api with timeout := .vInt n } }
    ∧ manager_init true true none
        [("config.yaml", .readable (.ok { api := some [("timeout", .vInt a)] })),
         ("config.test.yaml", .readable (.ok { api := some [("timeout", .vInt b)] }))] [] =
      .ok { defaultTestConfig with api := { defaultTestConfig.api with timeout := .vInt b } }
    ∧ manager_init true true none
        [("config.yaml", .readable (.ok { api := some [("timeout", .vInt a)] }))] [] =
      .ok { defaultTestConfig with api := { defaultTestConfig.api with timeout := .vInt a } })
    ∧ (∀ ent ∈ override_table, ∀ (v1 v2 : Value) (t : String) (w : Value),
        (t == "") = false → ent.coerce t = some w →
        (Option.map ent.proj (resolve_tree true
            [("config.yaml", .readable (.ok (section_data ent.sec [(ent.key, v1)]))),
             ("config.test.yaml", .readable (.ok (section_data ent.sec [(ent.key, v2)])))]
            [(ent.var, t)] "test") = some w
         ∧ Option.map ent.proj (resolve_tree true
            [("config.yaml", .readable (.ok (section_data ent.sec [(ent.key, v1)]))),
             ("config.test.yaml", .readable (.ok (section_data ent.sec [(ent.key, v2)])))]
            [] "test") = some v2
         ∧ Option.map ent.proj (resolve_tree true
            [("config.yaml", .readable (.ok (section_data ent.sec [(ent.key, v1)])))]
            [] "test") = some v1)) := by
  constructor
  · refine ⟨?_, ?_, ?_⟩
    · have hs' : (s == "") = false := beq_eq_false_iff_ne.mpr hs
      have hgt : getenvTruthy [("API_TIMEOUT", s)] "API_TIMEOUT" = some s :=
        getenvTruthy_single "API_TIMEOUT" s hs'
      have hov : apply_env_overrides [("API_TIMEOUT", s)]
          { defaultTestConfig with api := { defaultTestConfig.api with timeout := .vInt b } } =
          some { defaultTestConfig with api := { defaultTestConfig.api with timeout := .vInt n } } := by
        simp only [apply_env_overrides, ov_db_type, ov_db_host, ov_db_port, ov_db_name, ov_db_user,
          ov_db_password, ov_api_base_url, ov_api_timeout, ov_api_max_retries, ov_browser_headless,
          ov_browser_timeout, ov_browser_viewport_width, ov_browser_viewport_height, ov_browser_type]
        simp only [hgt]
        simp only [hp]
        rfl
      calc manager_init true true none
            [("config.yaml", .readable (.ok { api := some [("timeout", .vInt a)] })),
             ("config.test.yaml", .readable (.ok { api := some [("timeout", .vInt b)] }))]
            [("API_TIMEOUT", s)]
          = load_config true
            [("config.yaml", .readable (.ok { api := some [("timeout", .vInt a)] })),
             ("config.test.yaml", .readable (.ok { api := some [("timeout", .vInt b)] }))]
            [("API_TIMEOUT", s)] "test" := rfl
        _ = finish_validation
              { defaultTestConfig with api := { defaultTestConfig.api with timeout := .vInt n } } :=
            load_config_steps _ _ _ _ _ hov
        _ = .ok { defaultTestConfig with api := { defaultTestConfig.api with timeout := .vInt n } } := by
            unfold finish_validation
            rw [validate_default_api_timeout n hn]
            rfl
    · calc manager_init true true none
            [("config.yaml", .readable (.ok { api := some [("timeout", .vInt a)] })),
             ("config.test.yaml", .readable (.ok { api := some [("timeout", .vInt b)] }))] []
          = load_config true
            [("config.yaml", .readable (.ok { api := some [("timeout", .vInt a)] })),
             ("config.test.yaml", .readable (.ok { api := some [("timeout", .vInt b)] }))] [] "test" := rfl
        _ = finish_validation
              { defaultTestConfig with api := { defaultTestConfig.api with timeout := .vInt b } } :=
            load_config_steps _ _ _ _ _ rfl
        _ = .ok { defaultTestConfig with api := { defaultTestConfig.api with timeout := .vInt b } } := by
            unfold finish_validation
            rw [validate_default_api_timeout b hb]
            rfl
    · calc manager_init true true none
            [("config.yaml", .readable (.ok { api := some [("timeout", .vInt a)] }))] []
          = load_config true
            [("config.yaml", .readable (.ok { api := some [("timeout", .vInt a)] }))] [] "test" := rfl
        _ = finish_validation
              { defaultTestConfig with api := { defaultTestConfig.api with timeout := .vInt a } } :=
            load_config_steps _ _ _ _ _ rfl
        _ = .ok { defaultTestConfig with api := { defaultTestConfig.api with timeout := .vInt a } } := by
            unfold finish_validation
            rw [validate_default_api_timeout a ha]
            rfl
  intro ent hent
  simp only [override_table, List.mem_cons, List.not_mem_nil, or_false] at hent
  rcases hent with h|h|h|h|h|h|h|h|h|h|h|h|h|h <;> subst h
  · intro v1 v2 t w ht hw
    obtain rfl : w = .vStr t := (Option.some.inj hw).symm
    refine ⟨?_, rfl, rfl⟩
    have hg := getenvTruthy_single "DB_TYPE" t ht
    simp only [resolve_tree, apply_env_overrides, ov_db_type, ov_db_host, ov_db_port,
        ov_db_name, ov_db_user, ov_db_password, ov_api_base_url, ov_api_timeout,
        ov_api_max_retries, ov_browser_headless, ov_browser_timeout,
        ov_browser_viewport_width, ov_browser_viewport_height, ov_browser_type]
    simp only [hg]
    rfl
  · intro v1 v2 t w ht hw
    obtain rfl : w = .vStr t := (Option.some.inj hw).symm
    refine ⟨?_, rfl, rfl⟩
    have hg := getenvTruthy_single "DB_HOST" t ht
    simp only [resolve_tree, apply_env_overrides, ov_db_type, ov_db_host, ov_db_port,
        ov_db_name, ov_db_user, ov_db_password, ov_api_base_url, ov_api_timeout,
        ov_api_max_retries, ov_browser_headless, ov_browser_timeout,
        ov_browser_viewport_width, ov_browser_viewport_height, ov_browser_type]
    simp only [hg]
    rfl
  · intro v1 v2 t w ht hw
    rcases Option.map_eq_some'.mp hw with ⟨n, hn, hwn⟩
    subst hwn
    refine ⟨?_, rfl, rfl⟩
    have hg := getenvTruthy_single "DB_PORT" t ht
    simp only [resolve_tree, apply_env_overrides, ov_db_type, ov_db_host, ov_db_port,
        ov_db_name, ov_db_user, ov_db_password, ov_api_base_url, ov_api_timeout,
        ov_api_max_retries, ov_browser_headless, ov_browser_timeout,
        ov_browser_viewport_width, ov_browser_viewport_height, ov_browser_type]
    simp only [hg]
    simp only [hn]
    rfl
  · intro v1 v2 t w ht hw
    obtain rfl : w = .vStr t := (Option.some.inj hw).symm
    refine ⟨?_, rfl, rfl⟩
    have hg := getenvTruthy_single "DB_NAME" t ht
    simp only [resolve_tree, apply_env_overrides, ov_db_type, ov_db_host, ov_db_port,
        ov_db_name, ov_db_user, ov_db_password, ov_api_base_url, ov_api_timeout,
        ov_api_max_retries, ov_browser_headless, ov_browser_timeout,
        ov_browser_viewport_width, ov_browser_viewport_height, ov_browser_type]
    simp only [hg]
    rfl
  · intro v1 v2 t w ht hw
    obtain rfl : w = .vStr t := (Option.some.inj hw).symm
    refine ⟨?_, rfl, rfl⟩
    have hg := getenvTruthy_single "DB_USER" t ht
    simp only [resolve_tree, apply_env_overrides, ov_db_type, ov_db_host, ov_db_port,
        ov_db_name, ov_db_user, ov_db_password, ov_api_base_url, ov_api_timeout,
        ov_api_max_retries, ov_browser_headless, ov_browser_timeout,
        ov_browser_viewport_width, ov_browser_viewport_height, ov_browser_type]
    simp only [hg]
    rfl
  · intro v1 v2 t w ht hw
    obtain rfl : w = .vStr t := (Option.some.inj hw).symm
    refine ⟨?_, rfl, rfl⟩
    have hg := getenvTruthy_single "DB_PASSWORD" t ht
    simp only [resolve_tree, apply_env_overrides, ov_db_type, ov_db_host, ov_db_port,
        ov_db_name, ov_db_user, ov_db_password, ov_api_base_url, ov_api_timeout,
        ov_api_max_retries, ov_browser_headless, ov_browser_timeout,
        ov_browser_viewport_width, ov_browser_viewport_height, ov_browser_type]
    simp only [hg]
    rfl
  · intro v1 v2 t w ht hw
    obtain rfl : w = .vStr t := (Option.some.inj hw).symm
    refine ⟨?_, rfl, rfl⟩
    have hg := getenvTruthy_single "API_BASE_URL" t ht
    simp only [resolve_tree, apply_env_overrides, ov_db_type, ov_db_host, ov_db_port,
        ov_db_name, ov_db_user, ov_db_password, ov_api_base_url, ov_api_timeout,
        ov_api_max_retries, ov_browser_headless, ov_browser_timeout,
        ov_browser_viewport_width, ov_browser_viewport_height, ov_browser_type]
    simp only [hg]
    rfl
  · intro v1 v2 t w ht hw
    rcases Option.map_eq_some'.mp hw with ⟨n, hn, hwn⟩
    subst hwn
    refine ⟨?_, rfl, rfl⟩
    have hg := getenvTruthy_single "API_TIMEOUT" t ht
    simp only [resolve_tree, apply_env_overrides, ov_db_type, ov_db_host, ov_db_port,
        ov_db_name, ov_db_user, ov_db_password, ov_api_base_url, ov_api_timeout,
        ov_api_max_retries, ov_browser_headless, ov_browser_timeout,
        ov_browser_viewport_width, ov_browser_viewport_height, ov_browser_type]
    simp only [hg]
    simp only [hn]
    rfl
  · intro v1 v2 t w ht hw
    rcases Option.map_eq_some'.mp hw with ⟨n, hn, hwn⟩
    subst hwn
    refine ⟨?_, rfl, rfl⟩
    have hg := getenvTruthy_single "API_MAX_RETRIES" t ht
    simp only [resolve_tree, apply_env_overrides, ov_db_type, ov_db_host, ov_db_port,
        ov_db_name, ov_db_user, ov_db_password, ov_api_base_url, ov_api_timeout,
        ov_api_max_retries, ov_browser_headless, ov_browser_timeout,
        ov_browser_viewport_width, ov_browser_viewport_height, ov_browser_type]
    simp only [hg]
    simp only [hn]
    rfl
  · intro v1 v2 t w ht hw
    obtain rfl : w = .vBool (t.toLower == "true") := (Option.some.inj hw).symm
    refine ⟨?_, rfl, rfl⟩
    have hg := getenvTruthy_single "BROWSER_HEADLESS" t ht
    simp only [resolve_tree, apply_env_overrides, ov_db_type, ov_db_host, ov_db_port,
        ov_db_name, ov_db_user, ov_db_password, ov_api_base_url, ov_api_timeout,
        ov_api_max_retries, ov_browser_headless, ov_browser_timeout,
        ov_browser_viewport_width, ov_browser_viewport_height, ov_browser_type]
    simp only [hg]
    rfl
  · intro v1 v2 t w ht hw
    rcases Option.map_eq_some'.mp hw with ⟨n, hn, hwn⟩
    subst hwn
    refine ⟨?_, rfl, rfl⟩
    have hg := getenvTruthy_single "BROWSER_TIMEOUT" t ht
    simp only [resolve_tree, apply_env_overrides, ov_db_type, ov_db_host, ov_db_port,
        ov_db_name, ov_db_user, ov_db_password, ov_api_base_url, ov_api_timeout,
        ov_api_max_retries, ov_browser_headless, ov_browser_timeout,
        ov_browser_viewport_width, ov_browser_viewport_height, ov_browser_type]
    simp only [hg]
    simp only [hn]
    rfl
  · intro v1 v2 t w ht hw
    rcases Option.map_eq_some'.mp hw with ⟨n, hn, hwn⟩
    subst hwn
    refine ⟨?_, rfl, rfl⟩
    have hg := getenvTruthy_single "BROWSER_VIEWPORT_WIDTH" t ht
    simp only [resolve_tree, apply_env_overrides, ov_db_type, ov_db_host, ov_db_port,
        ov_db_name, ov_db_user, ov_db_password, ov_api_base_url, ov_api_timeout,
        ov_api_max_retries, ov_browser_headless, ov_browser_timeout,
        ov_browser_viewport_width, ov_browser_viewport_height, ov_browser_type]
    simp only [hg]
    simp only [hn]
    rfl
  · intro v1 v2 t w ht hw
    rcases Option.map_eq_some'.mp hw with ⟨n, hn, hwn⟩
    subst hwn
    refine ⟨?_, rfl, rfl⟩
    have hg := getenvTruthy_single "BROWSER_VIEWPORT_HEIGHT" t ht
    simp only [resolve_tree, apply_env_overrides, ov_db_type, ov_db_host, ov_db_port,
        ov_db_name, ov_db_user, ov_db_password, ov_api_base_url, ov_api_timeout,
        ov_api_max_retries, ov_browser_headless, ov_browser_timeout,
        ov_browser_viewport_width, ov_browser_viewport_height, ov_browser_type]
    simp only [hg]
    simp only [hn]
    rfl
  · intro v1 v2 t w ht hw
    obtain rfl : w = .vStr t := (Option.some.inj hw).symm
    refine ⟨?_, rfl, rfl⟩
    have hg := getenvTruthy_single "BROWSER_TYPE" t ht
    simp only [resolve_tree, apply_env_overrides, ov_db_type, ov_db_host, ov_db_port,
        ov_db_name, ov_db_user, ov_db_password, ov_api_base_url, ov_api_timeout,
        ov_api_max_retries, ov_browser_headless, ov_browser_timeout,
        ov_browser_viewport_width, ov_browser_viewport_height, ov_browser_type]
    simp only [hg]
    rfl

/-- C1, witness: the spec's concrete scenario `10` / `20` / `"30"` for
`api.timeout` through a full `load`, plus the general clause applied to
`database.type` with a base-file `"mysql"`, an environment-file
`"postgresql"` and `DB_TYPE="mongodb"`. -/
theorem claim_C1_witness :
    (manager_init true true none
        [("config.yaml", .readable (.ok { api := some [("timeout", .vInt 10)] })),
         ("config.test.yaml", .readable (.ok { api := some [("timeout", .vInt 20)] }))]
        [("API_TIMEOUT", "30")] =
      .ok { defaultTestConfig with api := { defaultTestConfig.api with timeout := .vInt 30 } }
    ∧ manager_init true true none
        [("config.yaml", .readable (.ok { api := some [("timeout", .vInt 10)] })),
         ("config.test.yaml", .readable (.ok { api := some [("timeout", .vInt 20)] }))] [] =
      .ok { defaultTestConfig with api := { defaultTestConfig.api with timeout := .vInt 20 } }
    ∧ manager_init true true none
        [("config.yaml", .readable (.ok { api := some [("timeout", .vInt 10)] }))] [] =
      .ok { defaultTestConfig with api := { defaultTestConfig.api with timeout := .vInt 10 } })
    ∧ (Option.map (fun c => c.database.type) (resolve_tree true
        [("config.yaml", .readable (.ok (section_data "database" [("type", .vStr "mysql")]))),
         ("config.test.yaml", .readable (.ok (section_data "database" [("type", .vStr "postgresql")])))]
        [("DB_TYPE", "mongodb")] "test") = some (.vStr "mongodb")
      ∧ Option.map (fun c => c.database.type) (resolve_tree true
        [("config.yaml", .readable (.ok (section_data "database" [("type", .vStr "mysql")]))),
         ("config.test.yaml", .readable (.ok (section_data "database" [("type", .vStr "postgresql")])))]
        [] "test") = some (.vStr "postgresql")
      ∧ Option.map (fun c => c.database.type) (resolve_tree true
        [("config.yaml", .readable (.ok (section_data "database" [("type", .vStr "mysql")])))]
        [] "test") = some (.vStr "mysql")) :=
  ⟨(claim_C1_layer_precedence 10 20 30 "30"
      (by decide) (by decide) (by decide) (by decide) (by decide)).1,
   (claim_C1_layer_precedence 10 20 30 "30"
      (by decide) (by decide) (by decide) (by decide) (by decide)).2
     ⟨"DB_TYPE", "database", "type", fun c => c.database.type, fun s => some (.vStr s)⟩
     (by unfold override_table; exact List.mem_cons_self _ _)
     (.vStr "mysql") (.vStr "postgresql") "mongodb" (.vStr "mongodb") (by decide) rfl⟩

set_option maxHeartbeats 1000000 in
/-- C2, amended: validation checks the six enumerated invariants PLUS a
seventh (a non-empty, truthy `api.base_url`), and a merged tree passes
validation if and only if all seven hold; `load` exposes the tree exactly
when validation produced no error message. -/
theorem claim_C2_amended (c : TestConfig) :
    (validate_errors c = some [] ↔
      (spec_six_invariants c && valTruthy c.api.base_url) = true)
    ∧ (finish_validation c = .ok c ↔ validate_errors c = some []) := by
  constructor
  · unfold validate_errors spec_six_invariants
    rcases hA : valNum c.api.timeout with _ | t
    · simp
    rcases hB : valNum c.browser.timeout with _ | u
    · simp
    rcases hU : valNum c.performance.default_concurrent_users with _ | w
    · simp
    rcases hR : valNum c.performance.min_success_rate with _ | r
    · simp
    simp only [Option.bind_eq_bind, Option.some_bind, ite_self_append, ite_append_self]
    simp only [Option.some.injEq, List.append_eq_nil, ite_nil_eq_nil_iff, ite_nil_eq_nil_iff_rev,
      Bool.and_eq_true, decide_eq_true_eq, not_le, not_lt, not_or]
    tauto
  · constructor
    · intro h
      unfold finish_validation at h
      split at h
      · cases h
      · rename_i errs heq
        split at h
        · rename_i he
          rw [heq, List.isEmpty_iff.mp he]
        · cases h
    · intro h
      unfold finish_validation
      rw [h]
      rfl

/-- A merged tree with `database.type = "oracle"`,
`performance.min_success_rate = 150` AND a string-valued `api.timeout`. -/
def exampleTreeC3bad : TestConfig :=
  { defaultTestConfig with
    database := { defaultTestConfig.database with type := .vStr "oracle" },
    api := { defaultTestConfig.api with timeout := .vStr "never" },
    performance := { defaultTestConfig.performance with min_success_rate := .vInt 150 } }

/-- C3, counterexample: the claim quantifies over EVERY merged tree with
`database.type="oracle"` and `min_success_rate=150`, but a config file
can also set `api.timeout` to a string; on such a tree validation
aborts with an uncaught `TypeError` at the `api.timeout <= 0`
comparison, producing no message list at all, so `load` does not fail
with a message containing the two violation descriptions.  The last
conjunct reaches such a merged tree through an actual `load`. -/
theorem claim_C3_counterexample :
    exampleTreeC3bad.database.type = .vStr "oracle"
    ∧ exampleTreeC3bad.performance.min_success_rate = .vInt 150
    ∧ validate_errors exampleTreeC3bad = none
    ∧ finish_validation exampleTreeC3bad = .error .typeErrorInValidation
    ∧ manager_init true true none
        [("config.yaml", .readable (.ok
          { database := some [("type", .vStr "oracle")],
            api := some [("timeout", .vStr "never")],
            performance := some [("min_success_rate", .vInt 150)] }))] [] =
      .error .typeErrorInValidation := by
  refine ⟨rfl, rfl, rfl, rfl, ?_⟩
  decide

/-- C3, amended: every merged tree carrying `database.type = "oracle"` and
`performance.min_success_rate = 150` whose numerically compared fields
(`api.timeout`, `browser.timeout`, `performance.default_concurrent_users`)
hold numbers — so that no `TypeError` preempts validation — fails
validation with a message list containing BOTH the invalid-database-type
description and the out-of-range-success-rate description, and `load`
raises the aggregated error built from that whole list, one message per
line. -/
theorem claim_C3_validation_aggregation (c : TestConfig)
    (hdb : c.database.type = .vStr "oracle")
    (hsr : c.performance.min_success_rate = .vInt 150)
    (hA : (valNum c.api.timeout).isSome = true)
    (hB : (valNum c.browser.timeout).isSome = true)
    (hU : (valNum c.performance.default_concurrent_users).isSome = true) :
    ∃ errs, validate_errors c = some errs ∧
      "不支持的数据库类型: oracle" ∈ errs ∧
      "最小成功率必须在0-100之间" ∈ errs ∧
      finish_validation c = .error (.validationFailed (mk_validation_error errs)) := by
  rcases Option.isSome_iff_exists.mp hA with ⟨t, ht⟩
  rcases Option.isSome_iff_exists.mp hB with ⟨u, hu⟩
  rcases Option.isSome_iff_exists.mp hU with ⟨w, hw⟩
  have hvsome : ∃ errs, validate_errors c = some errs := by
    unfold validate_errors
    rw [ht, hu, hw, hsr]
    exact ⟨_, rfl⟩
  obtain ⟨errs, hv⟩ := hvsome
  have hm1 : ("不支持的数据库类型: " ++ pyStr c.database.type) ∈ errs :=
    db_type_message_mem hv (by rw [hdb]; rfl)
  have hm1' : "不支持的数据库类型: oracle" ∈ errs := by
    rw [hdb] at hm1
    exact hm1
  have hR : valNum c.performance.min_success_rate = some ((150 : Int) : Rat) := by
    rw [hsr]; rfl
  have hm2 : "最小成功率必须在0-100之间" ∈ errs :=
    success_rate_message_mem hv hR (Or.inr (by norm_num))
  exact ⟨errs, hv, hm1', hm2, finish_validation_of_errors hv (List.ne_nil_of_mem hm1')⟩

/-- A tree with an invalid database type and an out-of-range success rate. -/
def exampleTreeC3 : TestConfig :=
  { defaultTestConfig with
    database := { defaultTestConfig.database with type := .vStr "oracle" },
    performance := { defaultTestConfig.performance with min_success_rate := .vInt 150 } }

/-- C3, witness at a concrete tree. -/
theorem claim_C3_witness :
    ∃ errs, validate_errors exampleTreeC3 = some errs ∧
      "不支持的数据库类型: oracle" ∈ errs ∧
      "最小成功率必须在0-100之间" ∈ errs ∧
      finish_validation exampleTreeC3 =
        .error (.validationFailed (mk_validation_error errs)) :=
  claim_C3_validation_aggregation exampleTreeC3 rfl rfl (by decide) (by decide) (by decide)

/-- C7: for every valid tree (its `custom` dictionary having distinct keys,
as every Python dictionary does, and validation passing), saving it and
then loading freshly with the saved mapping as the base-configuration
candidate — no environment file, no environment variables — reproduces
all six sections field-for-field, except `database.password`, which is
excluded from serialization and comes back as its default `""`. -/
theorem claim_C7_roundtrip (c : TestConfig)
    (hnd : (c.custom.map Prod.fst).Nodup)
    (hv : validate_errors c = some []) :
    manager_init true true none [("config.yaml", .readable (.ok (save_config_data c)))] [] =
      .ok { environment := "test", database := { c.database with password := .vStr "" },
            api := c.api, browser := c.browser, report := c.report,
            performance := c.performance, custom := c.custom } := by
  have hcu : dict_update [] c.custom = c.custom := dict_update_nil c.custom hnd
  have hM : manager_init true true none [("config.yaml", .readable (.ok (save_config_data c)))] [] =
      finish_validation
        (merge_config { defaultTestConfig with environment := "test" } (save_config_data c)) := rfl
  have hmerge : merge_config { defaultTestConfig with environment := "test" } (save_config_data c) =
      { environment := "test", database := { c.database with password := .vStr "" },
        api := c.api, browser := c.browser, report := c.report,
        performance := c.performance, custom := dict_update [] c.custom } := by
    simp [merge_config, merge_fields, save_config_data, defaultTestConfig,
      DatabaseConfig.hasField, DatabaseConfig.setField, APIConfig.hasField, APIConfig.setField,
      BrowserConfig.hasField, BrowserConfig.setField, ReportConfig.hasField, ReportConfig.setField,
      PerformanceConfig.hasField, PerformanceConfig.setField]
  rw [hM, hmerge, hcu]
  have hv2 : validate_errors
      { environment := "test", database := { c.database with password := .vStr "" },
        api := c.api, browser := c.browser, report := c.report,
        performance := c.performance, custom := c.custom } = some [] := hv
  unfold finish_validation
  rw [hv2]
  rfl

/-- C7, witness: round-trip of the default tree. -/
theorem claim_C7_witness :
    manager_init true true none
        [("config.yaml", .readable (.ok (save_config_data defaultTestConfig)))] [] =
      .ok { environment := "test",
            database := { defaultTestConfig.database with password := .vStr "" },
            api := defaultTestConfig.api, browser := defaultTestConfig.browser,
            report := defaultTestConfig.report, performance := defaultTestConfig.performance,
            custom := defaultTestConfig.custom } :=
  claim_C7_roundtrip defaultTestConfig (by decide) (by decide)

/-- C9: the mapping written by `save_config` holds no `password` key under
`database` while every other database field is written, and consequently
any successful fresh load that takes the saved mapping as its base
configuration yields `database.password = ""` (the default), not the
original value. -/
theorem claim_C9_password_not_serialized (c : TestConfig) :
    (((save_config_data c).database.getD []).lookup "password" = none)
    ∧ ((save_config_data c).database.getD []).map Prod.fst =
        ["type", "host", "port", "database", "username", "connection_pool_size", "timeout"]
    ∧ (∀ c2, manager_init true true none
          [("config.yaml", .readable (.ok (save_config_data c)))] [] = .ok c2 →
        c2.database.password = .vStr "") := by
  refine ⟨rfl, rfl, ?_⟩
  intro c2 h
  have h2 : finish_validation
      (merge_config { defaultTestConfig with environment := "test" } (save_config_data c)) =
      .ok c2 := h
  have h3 := finish_validation_ok h2
  rw [h3]
  rfl

/-- C9, witness: loading the saved default tree back. -/
theorem claim_C9_witness :
    defaultTestConfig.database.password = .vStr "" :=
  (claim_C9_password_not_serialized defaultTestConfig).2.2 defaultTestConfig (by decide)

/-- C10: an override environment variable present with the empty-string
value is treated exactly as if it were unset — dropping every
empty-valued binding from a (duplicate-free) environment leaves
`_apply_env_overrides` unchanged, and an environment holding ALL
fourteen recognised override variables with empty values applies no
override at all, so every field (the database password included) keeps
the value produced by the earlier layers. -/
theorem claim_C10_empty_env_ignored (e : Env) (c : TestConfig)
    (hnd : (e.map Prod.fst).Nodup) :
    apply_env_overrides e c = apply_env_overrides (env_drop_empty e) c
    ∧ apply_env_overrides (override_env_vars.map (fun n => (n, ""))) c = some c := by
  constructor
  · have hg : ∀ k, getenvTruthy (env_drop_empty e) k = getenvTruthy e k :=
      getenvTruthy_drop_empty e hnd
    simp only [apply_env_overrides, ov_db_type, ov_db_host, ov_db_port, ov_db_name,
      ov_db_user, ov_db_password, ov_api_base_url, ov_api_timeout, ov_api_max_retries,
      ov_browser_headless, ov_browser_timeout, ov_browser_viewport_width,
      ov_browser_viewport_height, ov_browser_type, hg]
  · rfl

/-- C2, witness for the amended claim at the default tree. -/
theorem claim_C2_amended_witness :
    (validate_errors defaultTestConfig = some [] ↔
      (spec_six_invariants defaultTestConfig && valTruthy defaultTestConfig.api.base_url) = true)
    ∧ (finish_validation defaultTestConfig = .ok defaultTestConfig ↔
        validate_errors defaultTestConfig = some []) :=
  claim_C2_amended defaultTestConfig

/-- C5, witness at concrete inputs: the spec's own examples. -/
theorem claim_C5_witness :
    update_config defaultTestConfig "database" "nonexistent_field" (.vInt 5) =
      .error "未知的配置节或键: database.nonexistent_field"
    ∧ update_config defaultTestConfig "custom" "anything" (.vInt 5) =
      .ok { defaultTestConfig with
            custom := dict_set defaultTestConfig.custom "anything" (.vInt 5) } :=
  claim_C5_update_field_rejection defaultTestConfig "anything" (.vInt 5)

/-- C10, witness: a concrete environment with `DB_PASSWORD` empty. -/
theorem claim_C10_witness :
    (apply_env_overrides [("DB_PASSWORD", ""), ("DB_HOST", "h")] defaultTestConfig =
      apply_env_overrides (env_drop_empty [("DB_PASSWORD", ""), ("DB_HOST", "h")])
        defaultTestConfig)
    ∧ apply_env_overrides (override_env_vars.map (fun n => (n, ""))) defaultTestConfig =
        some defaultTestConfig :=
  claim_C10_empty_env_ignored [("DB_PASSWORD", ""), ("DB_HOST", "h")] defaultTestConfig
    (by decide)

end PWConfig
